import Mathlib

/-!
Verification of the census-population sampling pipeline (`src/main.py`).

The Python program estimates the population within a radius of a center
coordinate: it generates a grid of candidate points (`generate_points_within_radius`),
filters them by a haversine-style distance (`haversine_distance`), resolves each
point to a census-block FIPS identifier through an external geocoding service
(`get_census_block_fips`), deduplicates the identifiers into a set
(`get_unique_blocks_within_radius`), and queries a statistics service for each
block's population (`get_population_for_block_fips` via `call_us_census_api`),
where each network-facing function is wrapped in a 3-attempt retry policy.

Modelling conventions:
* Python floats are modelled as real numbers (`ℝ`); the transcendental
  functions force the geometric definitions to be `noncomputable`.
* The two external HTTP services are modelled as oracle functions passed as
  explicit arguments.  An oracle takes the request data plus the zero-based
  attempt index, so that transient failures (different outcomes on different
  attempts) are expressible.  Python exceptions raised by a call are modelled
  by `Except`.
* The `tenacity` decorator `retry(stop=stop_after_attempt(3), ...)` is
  modelled by `retryAttempts f 0 2`: run attempt 0 and retry at most 2 more
  times; after the third failed attempt the final exception surfaces
  (tenacity re-raises a terminal `RetryError` wrapping the last exception,
  modelled as that last error value).  The `wait_exponential` backoff only
  affects real time, which is not modelled.
* Python's unbounded `while` loops over floats are modelled by the fueled
  loop `whileVals` supplied with the fuel `natFuel`, which is proved
  sufficient (the loop result is stable under any larger fuel) for every
  positive step.
* Python strings are Lean `String`s; slicing `s[a:b]` / `s[a:]` is `pySlice` /
  `pySliceFrom`, and the builtin `int(...)` on a string is `pyInt?` (digits
  with an optional sign; `ValueError` becomes `none`).
* Python's `set` of FIPS strings is a `Finset String`; the final
  `list(block_fips_set)` conversion only forgets the (unspecified) iteration
  order, so the set itself is returned.
-/

/-- Errors of the external collaborators and of response parsing, following
the spec taxonomy: network failure, non-success HTTP status (both raised by
`requests` / `raise_for_status`), and parse failure (missing data row or a
cell that `int(...)` rejects). -/
inductive CensusError where
  | network
  | status (code : ℕ)
  | parseError
  deriving DecidableEq

instance {ε α : Type} [DecidableEq ε] [DecidableEq α] : DecidableEq (Except ε α) := fun x y =>
  match x, y with
  | Except.ok a, Except.ok b =>
    if h : a = b then isTrue (by rw [h]) else isFalse (by intro hh; cases hh; exact h rfl)
  | Except.ok _, Except.error _ => isFalse (by intro hh; cases hh)
  | Except.error _, Except.ok _ => isFalse (by intro hh; cases hh)
  | Except.error e, Except.error f =>
    if h : e = f then isTrue (by rw [h]) else isFalse (by intro hh; cases hh; exact h rfl)

/-- The tabular JSON answer of the census statistics API: a list of rows,
each a list of string cells (the program reads `response[1][0]`). -/
abbrev Table : Type := List (List String)

/-- The query parameter dictionary built by the program for the census API:
keys `get`, `for`, `in` and optionally `key`. -/
structure CensusQuery where
  getParam : String
  forParam : String
  inParam : String
  keyParam : Option String
  deriving DecidableEq

/-- Model of the `@retry(stop=stop_after_attempt(n), ...)` decorator from
`tenacity`: `retryAttempts f i k` runs attempt `i` of the wrapped body `f`
and retries (with the next attempt index) at most `k` more times on failure.
`stop_after_attempt(3)` is `retryAttempts f 0 2`.  When the last allowed
attempt fails its error surfaces as the terminal error. -/
def retryAttempts {ε α : Type} (f : ℕ → Except ε α) : ℕ → ℕ → Except ε α
  | i, 0 => f i
  | i, k + 1 =>
    match f i with
    | Except.ok a => Except.ok a
    | Except.error _ => retryAttempts f (i + 1) k

/-- `call_us_census_api(endpoint, params, api_key)` from `src/main.py`
(lines 13-34).  If `api_key` is truthy (Python `if api_key:` — so a `None`
or empty string is skipped) it is added to the params as `key`; then the
HTTP GET + `raise_for_status` + `.json()` body, modelled by the oracle
`http`, runs under the 3-attempt retry policy. -/
def call_us_census_api (http : String → CensusQuery → ℕ → Except CensusError Table)
    (endpoint : String) (params : CensusQuery) (api_key : Option String := none) :
    Except CensusError Table :=
  let params :=
    match api_key with
    | some k => if k = "" then params else { params with keyParam := some k }
    | none => params
  retryAttempts (fun attempt => http endpoint params attempt) 0 2

/-- `get_census_block_fips(lat, lon)` from `src/main.py` (lines 37-56): the
whole body (FCC geocoding GET, `raise_for_status`, `.json()`, and the
`['Block']['FIPS']` projection) is the oracle `fcc`, run under the 3-attempt
retry policy.  On success it returns the block FIPS string. -/
def get_census_block_fips (fcc : ℝ → ℝ → ℕ → Except CensusError String)
    (lat lon : ℝ) : Except CensusError String :=
  retryAttempts (fun attempt => fcc lat lon attempt) 0 2

/-- Python string slice `s[a:b]` (for `0 ≤ a ≤ b`, the only shape the
program uses): drop `a` characters, keep the next `b - a`.  Out-of-range
bounds truncate silently exactly as in Python. -/
def pySlice (s : String) (a b : ℕ) : String := ⟨(s.data.drop a).take (b - a)⟩

/-- Python string slice `s[a:]`: drop the first `a` characters, truncating
silently when the string is shorter. -/
def pySliceFrom (s : String) (a : ℕ) : String := ⟨s.data.drop a⟩

/-- Helper for `pyInt?`: parse a nonempty all-digit character list as a
natural number, `none` otherwise. -/
def digitsToNat? (cs : List Char) : Option ℕ :=
  if cs = [] then none
  else
    cs.foldl
      (fun acc? c =>
        acc?.bind fun acc =>
          if c.isDigit then some (acc * 10 + (c.toNat - 48)) else none)
      (some 0)

/-- Model of Python's builtin `int(...)` applied to a string cell: an
optional sign followed by digits; any other shape raises `ValueError`,
modelled as `none`.  (Python also tolerates surrounding whitespace and
underscore separators; those inputs do not occur in this development.) -/
def pyInt? (s : String) : Option Int :=
  match s.data with
  | [] => none
  | c :: rest =>
    if c = '-' then (digitsToNat? rest).map fun n => -(n : Int)
    else if c = '+' then (digitsToNat? rest).map fun n => (n : Int)
    else (digitsToNat? (c :: rest)).map fun n => (n : Int)

/-- The parse step `int(population_response[1][0])` of
`get_population_for_block_fips` (line 129): a missing second row or first
cell (Python `IndexError`) or a cell `int(...)` rejects (`ValueError`) is a
parse failure. -/
def parsePopulation (response : Table) : Except CensusError Int :=
  match response[1]? with
  | none => Except.error CensusError.parseError
  | some row =>
    match row[0]? with
    | none => Except.error CensusError.parseError
    | some cell =>
      match pyInt? cell with
      | none => Except.error CensusError.parseError
      | some n => Except.ok n

/-- `get_population_for_block_fips(block_fips, api_key)` from `src/main.py`
(lines 114-129): slice the FIPS string at the fixed offsets 2, 5, 11, build
the census query, call `call_us_census_api` (which retries), then parse
`response[1][0]` as an integer.  Note the parse happens after — outside —
the retried call, exactly as in the source. -/
def get_population_for_block_fips (http : String → CensusQuery → ℕ → Except CensusError Table)
    (block_fips : String) (api_key : Option String := none) : Except CensusError Int :=
  let state_fips := pySlice block_fips 0 2
  let county_fips := pySlice block_fips 2 5
  let tract_code := pySlice block_fips 5 11
  let block_code := pySliceFrom block_fips 11
  match
    call_us_census_api http "https://api.census.gov/data/2020/dec/pl"
      { getParam := "P1_001N"
        forParam := "block:" ++ block_code
        inParam := "state:" ++ state_fips ++ " county:" ++ county_fips ++ " tract:" ++ tract_code
        keyParam := none }
      api_key
  with
  | Except.error e => Except.error e
  | Except.ok response => parsePopulation response

/-- `math.radians`: degrees to radians. -/
noncomputable def radians (degrees : ℝ) : ℝ := degrees * (Real.pi / 180)

section
open Classical

/-- `math.atan2 y x`: the standard two-argument arctangent on the reals
(signed-zero subtleties of floats do not arise; in this program both
arguments are square roots, hence nonnegative). -/
noncomputable def atan2 (y x : ℝ) : ℝ :=
  if 0 < x then Real.arctan (y / x)
  else if x < 0 ∧ 0 ≤ y then Real.arctan (y / x) + Real.pi
  else if x < 0 ∧ y < 0 then Real.arctan (y / x) - Real.pi
  else if x = 0 ∧ 0 < y then Real.pi / 2
  else if x = 0 ∧ y < 0 then -(Real.pi / 2)
  else 0

/-- `haversine_distance(lat1, lon1, lat2, lon2)` from `src/main.py`
(lines 59-72), transcribed literally: the intermediate value `a` is
`sin(dphi/2)**2 + cos(phi1)*cos(phi2) + sin(dlambda/2)**2` — with a `+`
between the cosine product and the second sine-squared term, exactly as the
source has it (the haversine formula proper would multiply them).
Python's `math.sqrt` raises `ValueError` on negative input where
`Real.sqrt` returns 0; the facts proved below stay away from that region. -/
noncomputable def haversine_distance (lat1 lon1 lat2 lon2 : ℝ) : ℝ :=
  let R : ℝ := 3958.8
  let phi1 := radians lat1
  let phi2 := radians lat2
  let dphi := radians (lat2 - lat1)
  let dlambda := radians (lon2 - lon1)
  let a := Real.sin (dphi / 2) ^ 2 + Real.cos phi1 * Real.cos phi2 + Real.sin (dlambda / 2) ^ 2
  let c := 2 * atan2 (Real.sqrt a) (Real.sqrt (1 - a))
  R * c

/-- One inclusive-bound accumulation loop `while x <= maxv: ...; x += step`
of `generate_points_within_radius`, with explicit fuel: the list of loop
variable values visited.  (Real addition is exact, so `x += step` repeated
`i` times is exactly `x + i*step`.) -/
noncomputable def whileVals (maxv step : ℝ) : ℕ → ℝ → List ℝ
  | 0, _ => []
  | n + 1, x => if x ≤ maxv then x :: whileVals maxv step n (x + step) else []

/-- The number of iterations the loop `while x <= maxv: x += step` performs
for a positive `step`: `⌊(maxv - x)/step⌋ + 1`, clamped at zero.  Used as
(provably sufficient) fuel for `whileVals`. -/
noncomputable def natFuel (x maxv step : ℝ) : ℕ := (⌊(maxv - x) / step⌋ + 1).toNat

/-- Body of `generate_points_within_radius` from `src/main.py`
(lines 75-98) with the two while loops given explicit fuel: compute the
bounding box from `radius/69.0` and `radius/(cos(radians(center_lat))*69.0)`,
enumerate the lattice with both loops inclusive of the upper bound, and keep
a point exactly when `haversine_distance(center, point) <= radius`. -/
noncomputable def generate_points_fueled (center_lat center_lon radius step : ℝ)
    (latFuel lonFuel : ℕ) : List (ℝ × ℝ) :=
  let lat_range := radius / 69.0
  let lon_range := radius / (Real.cos (radians center_lat) * 69.0)
  let lat_min := center_lat - lat_range
  let lat_max := center_lat + lat_range
  let lon_min := center_lon - lon_range
  let lon_max := center_lon + lon_range
  (whileVals lat_max step latFuel lat_min).flatMap fun lat =>
    (whileVals lon_max step lonFuel lon_min).filterMap fun lon =>
      if haversine_distance center_lat center_lon lat lon ≤ radius then some (lat, lon) else none

/-- `generate_points_within_radius(center_lat, center_lon, radius, step=0.01)`:
the fueled body run with the canonical fuel `natFuel`, which is proved
sufficient for every positive step (`grid_enumeration_terminates`). -/
noncomputable def generate_points_within_radius (center_lat center_lon radius : ℝ)
    (step : ℝ := 0.01) : List (ℝ × ℝ) :=
  generate_points_fueled center_lat center_lon radius step
    (natFuel (center_lat - radius / 69.0) (center_lat + radius / 69.0) step)
    (natFuel (center_lon - radius / (Real.cos (radians center_lat) * 69.0))
      (center_lon + radius / (Real.cos (radians center_lat) * 69.0)) step)

end

/-- The dedup loop of `get_unique_blocks_within_radius` (lines 106-111):
resolve every point in order, accumulating the returned FIPS strings into a
set; the first resolution failure aborts (the Python exception propagates).
`resolve` abstracts `get_census_block_fips` applied to a point. -/
def deduplicate (resolve : ℝ × ℝ → Except CensusError String)
    (points : List (ℝ × ℝ)) : Except CensusError (Finset String) :=
  points.foldlM (fun block_fips_set p => (resolve p).map fun fips => insert fips block_fips_set)
    (∅ : Finset String)

/-- `get_unique_blocks_within_radius(center_lat, center_lon, radius)` from
`src/main.py` (lines 101-111): sample the grid with the default step, then
deduplicate the resolved block FIPS codes.  The final `list(block_fips_set)`
only forgets the set's (unspecified) iteration order, so the set is
returned. -/
noncomputable def get_unique_blocks_within_radius
    (fcc : ℝ → ℝ → ℕ → Except CensusError String)
    (center_lat center_lon radius : ℝ) : Except CensusError (Finset String) :=
  deduplicate (fun p => get_census_block_fips fcc p.1 p.2)
    (generate_points_within_radius center_lat center_lon radius)

/-! ## Basic unfolding lemmas -/

lemma retryAttempts_base {ε α : Type} (f : ℕ → Except ε α) (i : ℕ) :
    retryAttempts f i 0 = f i := rfl

lemma retryAttempts_step_error {ε α : Type} (f : ℕ → Except ε α) (i k : ℕ) (e : ε)
    (h : f i = Except.error e) : retryAttempts f i (k + 1) = retryAttempts f (i + 1) k := by
  show (match f i with
    | Except.ok a => Except.ok a
    | Except.error _ => retryAttempts f (i + 1) k) = retryAttempts f (i + 1) k
  rw [h]

lemma retryAttempts_first_ok {ε α : Type} (f : ℕ → Except ε α) (i k : ℕ) (a : α)
    (h : f i = Except.ok a) : retryAttempts f i k = Except.ok a := by
  cases k with
  | zero => exact h
  | succ k =>
    show (match f i with
      | Except.ok a => Except.ok a
      | Except.error _ => retryAttempts f (i + 1) k) = Except.ok a
    rw [h]

/-- Two failed attempts followed by a success: the retried call returns the
third attempt's value. -/
lemma retryAttempts_two_fail_then_ok {ε α : Type} (f : ℕ → Except ε α) (e0 e1 : ε) (a : α)
    (h0 : f 0 = Except.error e0) (h1 : f 1 = Except.error e1) (h2 : f 2 = Except.ok a) :
    retryAttempts f 0 2 = Except.ok a := by
  rw [show (2 : ℕ) = 1 + 1 from rfl, retryAttempts_step_error f 0 1 e0 h0,
    retryAttempts_step_error f 1 0 e1 h1, retryAttempts_base]
  exact h2

/-- Three failed attempts: the retried call surfaces the last error. -/
lemma retryAttempts_all_fail {ε α : Type} (f : ℕ → Except ε α) (e0 e1 e2 : ε)
    (h0 : f 0 = Except.error e0) (h1 : f 1 = Except.error e1) (h2 : f 2 = Except.error e2) :
    retryAttempts f 0 2 = Except.error e2 := by
  rw [show (2 : ℕ) = 1 + 1 from rfl, retryAttempts_step_error f 0 1 e0 h0,
    retryAttempts_step_error f 1 0 e1 h1, retryAttempts_base]
  exact h2

lemma whileVals_zero (maxv step x : ℝ) : whileVals maxv step 0 x = [] := rfl

lemma whileVals_succ (maxv step x : ℝ) (n : ℕ) :
    whileVals maxv step (n + 1) x =
      if x ≤ maxv then x :: whileVals maxv step n (x + step) else [] := rfl

lemma whileVals_of_gt (maxv step x : ℝ) (h : ¬x ≤ maxv) (n : ℕ) :
    whileVals maxv step n x = [] := by
  cases n with
  | zero => rfl
  | succ n => rw [whileVals_succ, if_neg h]

/-! ## Geometry helper lemmas -/

lemma radians_zero : radians 0 = 0 := by
  unfold radians
  exact zero_mul _

lemma atan2_pos_of_pos_of_nonneg (y x : ℝ) (hy : 0 < y) (hx : 0 ≤ x) : 0 < atan2 y x := by
  unfold atan2
  rcases lt_or_eq_of_le hx with h | h
  · rw [if_pos h]
    have hq : 0 < y / x := div_pos hy h
    have := Real.arctan_strictMono hq
    rwa [Real.arctan_zero] at this
  · rw [if_neg (h ▸ lt_irrefl (0 : ℝ)), if_neg (fun hc => absurd hc.1 (h ▸ lt_irrefl (0 : ℝ))),
      if_neg (fun hc => absurd hc.1 (h ▸ lt_irrefl (0 : ℝ))), if_pos ⟨h.symm, hy⟩]
    exact Real.pi_div_two_pos

lemma atan2_one_zero : atan2 1 0 = Real.pi / 2 := by
  unfold atan2
  rw [if_neg (lt_irrefl (0 : ℝ)), if_neg (fun hc => absurd hc.1 (lt_irrefl (0 : ℝ))),
    if_neg (fun hc => absurd hc.1 (lt_irrefl (0 : ℝ))), if_pos ⟨rfl, one_pos⟩]

/-- On the diagonal from the origin, the source's `a` collapses to exactly 1
(because `sin(t/2)^2 + cos t + sin(t/2)^2 = 1`), so the reported distance is
the constant `3958.8 * π` for every such point. -/
lemma haversine_distance_zero_diag (x : ℝ) :
    haversine_distance 0 0 x x = 3958.8 * Real.pi := by
  simp only [haversine_distance]
  rw [sub_zero, radians_zero, Real.cos_zero, one_mul]
  have ha : Real.sin (radians x / 2) ^ 2 + Real.cos (radians x) +
      Real.sin (radians x / 2) ^ 2 = 1 := by
    rw [Real.sin_sq_eq_half_sub]
    have h2 : 2 * (radians x / 2) = radians x := by ring
    rw [h2]
    ring
  rw [ha, sub_self, Real.sqrt_one, Real.sqrt_zero, atan2_one_zero]
  ring

/-- With equal endpoints the source's `a` is `cos(phi)^2`, giving the
strictly positive distance `3958.8 * 2 * atan2(|cos phi|, sqrt(1-cos^2))`
whenever `cos(radians lat) ≠ 0`. -/
lemma haversine_distance_self_pos (lat lon : ℝ) (hcos : Real.cos (radians lat) ≠ 0) :
    0 < haversine_distance lat lon lat lon := by
  simp only [haversine_distance]
  rw [sub_self, sub_self, radians_zero]
  have hs : Real.sin (0 / 2) ^ 2 = 0 := by
    rw [zero_div, Real.sin_zero]
    ring
  rw [hs]
  have ha : (0 : ℝ) + Real.cos (radians lat) * Real.cos (radians lat) + 0 =
      Real.cos (radians lat) ^ 2 := by ring
  rw [ha, Real.sqrt_sq_eq_abs]
  have hy : 0 < |Real.cos (radians lat)| := abs_pos.mpr hcos
  have hx : 0 ≤ Real.sqrt (1 - Real.cos (radians lat) ^ 2) := Real.sqrt_nonneg _
  have hat := atan2_pos_of_pos_of_nonneg _ _ hy hx
  nlinarith

/-! ## Claim C1 -/

/-- Claim C1 (code_bug): the spec demands `distance(a,a) = 0` under the
haversine formula, and the function's own docstring promises a great-circle
distance, but the transcribed source formula (with `+` in place of the
haversine's `*`) returns `3958.8 * π ≈ 12437` miles for the origin paired
with itself — not 0.  This theorem evaluates the code at that failing
input. -/
theorem haversine_self_distance_bug :
    haversine_distance 0 0 0 0 = 3958.8 * Real.pi ∧ haversine_distance 0 0 0 0 ≠ 0 := by
  have h := haversine_distance_zero_diag 0
  refine ⟨h, ?_⟩
  rw [h]
  have hpi := Real.pi_pos
  positivity

/-! ## Claim C4 -/

/-- Claim C4 (confirmed): `haversine_distance` is symmetric in its two
coordinate arguments — exactly, in real arithmetic — because every
subexpression of the source formula is invariant under swapping the
endpoints (the squared sines absorb the sign flip of the differences, and
the cosine product commutes). -/
theorem haversine_distance_symm (lat1 lon1 lat2 lon2 : ℝ) :
    haversine_distance lat1 lon1 lat2 lon2 = haversine_distance lat2 lon2 lat1 lon1 := by
  simp only [haversine_distance]
  have hsin : ∀ u v : ℝ, Real.sin (radians (u - v) / 2) ^ 2 =
      Real.sin (radians (v - u) / 2) ^ 2 := by
    intro u v
    have h : radians (u - v) = -(radians (v - u)) := by
      unfold radians
      ring
    rw [h, neg_div, Real.sin_neg]
    ring
  rw [hsin lat2 lat1, hsin lon2 lon1,
    mul_comm (Real.cos (radians lat1)) (Real.cos (radians lat2))]

/-! ## Loop-fuel lemmas -/

lemma natFuel_pos (x maxv step : ℝ) (hs : 0 < step) (hx : x ≤ maxv) :
    1 ≤ natFuel x maxv step := by
  unfold natFuel
  have hq : (0 : ℝ) ≤ (maxv - x) / step := div_nonneg (by linarith) hs.le
  have := Int.floor_nonneg.mpr hq
  omega

lemma natFuel_eq_zero (x maxv step : ℝ) (hs : 0 < step) (hx : ¬x ≤ maxv) :
    natFuel x maxv step = 0 := by
  unfold natFuel
  have hq : (maxv - x) / step < 0 := div_neg_of_neg_of_pos (by linarith) hs
  have hf : ⌊(maxv - x) / step⌋ < 0 := Int.floor_lt.mpr (by simpa using hq)
  omega

lemma natFuel_add_step (x maxv step : ℝ) (hs : step ≠ 0) :
    natFuel (x + step) maxv step = natFuel x maxv step - 1 := by
  unfold natFuel
  have h1 : (maxv - (x + step)) / step = (maxv - x) / step - 1 := by
    field_simp
    ring
  rw [h1, Int.floor_sub_one]
  omega

/-- The fueled loop is stable at the canonical fuel: for a positive step,
any fuel at least `natFuel x maxv step` produces the same value list, i.e.
the Python `while` loop terminates after exactly that many iterations. -/
lemma whileVals_stable (maxv step : ℝ) (hs : 0 < step) :
    ∀ (n : ℕ) (x : ℝ), natFuel x maxv step ≤ n →
      whileVals maxv step n x = whileVals maxv step (natFuel x maxv step) x := by
  intro n
  induction n with
  | zero =>
    intro x h
    rw [Nat.le_zero.mp h]
  | succ n ih =>
    intro x h
    by_cases hx : x ≤ maxv
    · have h1 : 1 ≤ natFuel x maxv step := natFuel_pos x maxv step hs hx
      obtain ⟨k, hk⟩ : ∃ k, natFuel x maxv step = k + 1 :=
        ⟨natFuel x maxv step - 1, by omega⟩
      have hnext : natFuel (x + step) maxv step = k := by
        rw [natFuel_add_step x maxv step hs.ne', hk]
        omega
      have hkn : natFuel (x + step) maxv step ≤ n := by omega
      rw [hk, whileVals_succ, whileVals_succ, if_pos hx, if_pos hx,
        ih (x + step) hkn, hnext]
    · rw [whileVals_of_gt maxv step x hx, natFuel_eq_zero x maxv step hs hx, whileVals_zero]

/-! ## Claim C10 -/

/-- Claim C10 (confirmed): for every center, radius and strictly positive
step, the nested inclusive-bound grid loops of
`generate_points_within_radius` terminate: unrolling each `while` loop with
any fuel at least the canonical iteration count `natFuel` yields the same
finite point list as the definition, so the enumeration is independent of
the bound and both loops perform finitely many iterations. -/
theorem grid_enumeration_terminates (center_lat center_lon radius step : ℝ) (hs : 0 < step)
    (latFuel lonFuel : ℕ)
    (hlat : natFuel (center_lat - radius / 69.0) (center_lat + radius / 69.0) step ≤ latFuel)
    (hlon : natFuel (center_lon - radius / (Real.cos (radians center_lat) * 69.0))
        (center_lon + radius / (Real.cos (radians center_lat) * 69.0)) step ≤ lonFuel) :
    generate_points_fueled center_lat center_lon radius step latFuel lonFuel
      = generate_points_within_radius center_lat center_lon radius step := by
  simp only [generate_points_within_radius, generate_points_fueled]
  rw [whileVals_stable _ step hs latFuel _ hlat]
  congr 1
  funext lat
  rw [whileVals_stable _ step hs lonFuel _ hlon]

/-- Witness for C10 at the concrete input: center `(0,0)`, radius `69`,
step `1`, fuels `5 ≥ natFuel = 3`. -/
theorem grid_enumeration_terminates_witness :
    (0 : ℝ) < 1
  ∧ natFuel ((0 : ℝ) - 69 / 69.0) ((0 : ℝ) + 69 / 69.0) 1 ≤ 5
  ∧ natFuel ((0 : ℝ) - 69 / (Real.cos (radians 0) * 69.0))
      ((0 : ℝ) + 69 / (Real.cos (radians 0) * 69.0)) 1 ≤ 5
  ∧ generate_points_fueled 0 0 69 1 5 5 = generate_points_within_radius 0 0 69 1 := by
  have h1 : natFuel ((0 : ℝ) - 69 / 69.0) ((0 : ℝ) + 69 / 69.0) 1 ≤ 5 := by
    unfold natFuel
    norm_num
  have h2 : natFuel ((0 : ℝ) - 69 / (Real.cos (radians 0) * 69.0))
      ((0 : ℝ) + 69 / (Real.cos (radians 0) * 69.0)) 1 ≤ 5 := by
    rw [radians_zero, Real.cos_zero, one_mul]
    exact h1
  exact ⟨by norm_num, h1, h2, grid_enumeration_terminates 0 0 69 1 (by norm_num) 5 5 h1 h2⟩

/-! ## Grid-sample helper lemmas -/

/-- For a strictly negative radius the latitude bounds are inverted, so the
outer loop body never runs and the sample is empty (for any step). -/
lemma generate_points_neg_radius (center_lat center_lon radius step : ℝ) (hr : radius < 0) :
    generate_points_within_radius center_lat center_lon radius step = [] := by
  simp only [generate_points_within_radius, generate_points_fueled]
  have hd : radius / 69.0 < 0 := div_neg_of_neg_of_pos hr (by norm_num)
  have h : ¬(center_lat - radius / 69.0 ≤ center_lat + radius / 69.0) := by linarith
  rw [whileVals_of_gt _ step _ h]
  simp

/-- For radius zero both loops visit exactly the center, but the center is
then rejected by the distance filter, because the transcribed distance
formula gives a strictly positive self-distance whenever
`cos(radians center_lat) ≠ 0` (when the cosine is zero the Python code
raises `ZeroDivisionError` computing `lon_range` instead).  So the sample is
empty, not the singleton `[center]`. -/
lemma generate_points_zero_radius (center_lat center_lon step : ℝ) (hs : 0 < step)
    (hcos : Real.cos (radians center_lat) ≠ 0) :
    generate_points_within_radius center_lat center_lon 0 step = [] := by
  simp only [generate_points_within_radius, generate_points_fueled, zero_div, sub_zero, add_zero]
  have hfuel : ∀ c : ℝ, natFuel c c step = 1 := by
    intro c
    unfold natFuel
    rw [sub_self, zero_div, Int.floor_zero]
    rfl
  have hneg : ¬(haversine_distance center_lat center_lon center_lat center_lon ≤ 0) :=
    not_le.mpr (haversine_distance_self_pos center_lat center_lon hcos)
  simp only [hfuel, whileVals_succ, whileVals_zero, le_refl, if_true]
  simp [hneg]

/-! ## Claim C2 -/

/-- Claim C2 (corrected): contrary to the claim that `sample` returns the
singleton `{center}` for every radius ≤ 0, the code returns the empty list:
for radius < 0 the bounding box is inverted and no point is generated, and
for radius = 0 the center is generated but rejected by the filter
`haversine_distance(center, center) <= 0`, whose left side is strictly
positive (a consequence of the distance bug) at every center latitude with
nonzero cosine; the cosine-zero latitudes are excluded because there the
Python code raises `ZeroDivisionError` instead of returning. -/
theorem sample_nonpositive_radius_empty (center_lat center_lon radius step : ℝ) :
    (radius < 0 → generate_points_within_radius center_lat center_lon radius step = [])
  ∧ (radius = 0 → 0 < step → Real.cos (radians center_lat) ≠ 0 →
      generate_points_within_radius center_lat center_lon radius step = []) := by
  constructor
  · intro hr
    exact generate_points_neg_radius center_lat center_lon radius step hr
  · intro hr hs hcos
    subst hr
    exact generate_points_zero_radius center_lat center_lon step hs hcos

/-- Counterexample for C2 as stated: at center `(0,0)` with radius `0` and
the default step, the sample is empty — not the singleton `[(0,0)]` the
claim demands. -/
theorem sample_zero_radius_counterexample :
    generate_points_within_radius 0 0 0 ≠ [((0 : ℝ), (0 : ℝ))]
  ∧ generate_points_within_radius 0 0 0 = [] := by
  have h : generate_points_within_radius 0 0 0 = [] := by
    refine generate_points_zero_radius 0 0 0.01 (by norm_num) ?_
    rw [radians_zero, Real.cos_zero]
    norm_num
  refine ⟨?_, h⟩
  rw [h]
  simp

/-- Witness for the amended C2 at concrete inputs: radius `-1` and radius
`0`, both at center `(0,0)` with the default step `0.01`. -/
theorem sample_nonpositive_radius_empty_witness :
    generate_points_within_radius 0 0 (-1) 0.01 = []
  ∧ generate_points_within_radius 0 0 0 0.01 = [] := by
  constructor
  · exact (sample_nonpositive_radius_empty 0 0 (-1) 0.01).1 (by norm_num)
  · refine (sample_nonpositive_radius_empty 0 0 0 0.01).2 rfl (by norm_num) ?_
    rw [radians_zero, Real.cos_zero]
    norm_num

/-! ## Claim C3 -/

/-- Claim C3 (confirmed): every point the sampler returns satisfies
`haversine_distance(center, point) ≤ radius`: the grid filter admits a
lattice point exactly under that condition, so the sample has no false
positives with respect to the code's own Geodesy operation. -/
theorem sample_points_within_radius (center_lat center_lon radius step : ℝ) (p : ℝ × ℝ)
    (hp : p ∈ generate_points_within_radius center_lat center_lon radius step) :
    haversine_distance center_lat center_lon p.1 p.2 ≤ radius := by
  simp only [generate_points_within_radius, generate_points_fueled, List.mem_flatMap,
    List.mem_filterMap] at hp
  obtain ⟨lat, -, lon, -, hif⟩ := hp
  by_cases h : haversine_distance center_lat center_lon lat lon ≤ radius
  · rw [if_pos h] at hif
    obtain rfl : (lat, lon) = p := Option.some_inj.mp hif
    exact h
  · rw [if_neg h] at hif
    exact absurd hif (by simp)

/-- Witness for C3: at center `(0,0)` with radius `13800` and step `401`,
the single generated lattice point `(-200,-200)` is in the sample (its
distance is the diagonal constant `3958.8·π ≤ 13800`), and the theorem
yields the distance bound for it. -/
theorem sample_points_within_radius_witness :
    ((-200 : ℝ), (-200 : ℝ)) ∈ generate_points_within_radius 0 0 13800 401
  ∧ haversine_distance 0 0 (-200) (-200) ≤ 13800 := by
  have hd : haversine_distance 0 0 (-200) (-200) ≤ 13800 := by
    rw [haversine_distance_zero_diag]
    nlinarith [Real.pi_lt_d2]
  have hmem : ((-200 : ℝ), (-200 : ℝ)) ∈ generate_points_within_radius 0 0 13800 401 := by
    have e1 : generate_points_within_radius 0 0 13800 401 = [((-200 : ℝ), (-200 : ℝ))] := by
      simp only [generate_points_within_radius, generate_points_fueled]
      rw [radians_zero, Real.cos_zero, one_mul]
      have hb : (0 : ℝ) - 13800 / 69.0 = -200 := by norm_num
      have hfuel : natFuel ((0 : ℝ) - 13800 / 69.0) ((0 : ℝ) + 13800 / 69.0) 401 = 1 := by
        unfold natFuel
        norm_num
      rw [hfuel, whileVals_succ, whileVals_zero,
        if_pos (by norm_num : (0 : ℝ) - 13800 / 69.0 ≤ 0 + 13800 / 69.0), hb]
      simp only [List.flatMap_cons, List.flatMap_nil, List.filterMap_cons, List.filterMap_nil,
        List.append_nil]
      rw [if_pos hd]
    rw [e1]
    simp
  exact ⟨hmem, sample_points_within_radius 0 0 13800 401 ((-200 : ℝ), (-200 : ℝ)) hmem⟩

/-! ## Deduplication helper lemmas -/

/-- The dedup fold can only grow the accumulator set by at most one element
per resolved point. -/
lemma deduplicate_fold_card (resolve : ℝ × ℝ → Except CensusError String) :
    ∀ (points : List (ℝ × ℝ)) (s out : Finset String),
      List.foldlM (fun acc p => (resolve p).map fun fips => insert fips acc) s points
          = Except.ok out →
      out.card ≤ s.card + points.length := by
  intro points
  induction points with
  | nil =>
    intro s out h
    rw [List.foldlM_nil] at h
    have h' : (Except.ok s : Except CensusError (Finset String)) = Except.ok out := h
    cases h'
    simp
  | cons p ps ih =>
    intro s out h
    rw [List.foldlM_cons] at h
    cases hr : resolve p with
    | error e =>
      rw [hr] at h
      have h' : (Except.error e : Except CensusError (Finset String)) = Except.ok out := h
      exact Except.noConfusion h'
    | ok fips =>
      rw [hr] at h
      have h' : List.foldlM (fun acc p => (resolve p).map fun fips => insert fips acc)
          (insert fips s) ps = Except.ok out := h
      have hcard := ih (insert fips s) out h'
      have hins := Finset.card_insert_le fips s
      simp only [List.length_cons]
      omega

/-! ## Claim C5 -/

/-- Claim C5 (confirmed): whenever `deduplicate` succeeds, the block set it
returns has at most as many elements as the sample list it consumed; on the
empty sample it returns the empty block set, and its result on the empty
sample does not depend on the resolver at all — the observational content of
"zero calls to the external resolver". -/
theorem deduplicate_invariants :
    (∀ (resolve : ℝ × ℝ → Except CensusError String) (points : List (ℝ × ℝ))
        (out : Finset String),
        deduplicate resolve points = Except.ok out → out.card ≤ points.length)
  ∧ (∀ resolve : ℝ × ℝ → Except CensusError String,
        deduplicate resolve [] = Except.ok (∅ : Finset String))
  ∧ (∀ resolve resolveB : ℝ × ℝ → Except CensusError String,
        deduplicate resolve [] = deduplicate resolveB []) := by
  refine ⟨?_, ?_, ?_⟩
  · intro resolve points out h
    have := deduplicate_fold_card resolve points ∅ out h
    simpa using this
  · intro resolve
    rfl
  · intro resolve resolveB
    rfl

/-- Witness for C5: a two-point sample whose points both resolve to the
block `"a"` deduplicates to the singleton set, of size 1 ≤ 2. -/
theorem deduplicate_invariants_witness :
    deduplicate (fun _ => Except.ok "a") [((0 : ℝ), (0 : ℝ)), ((1 : ℝ), (1 : ℝ))]
      = Except.ok ({"a"} : Finset String)
  ∧ ({"a"} : Finset String).card
      ≤ ([((0 : ℝ), (0 : ℝ)), ((1 : ℝ), (1 : ℝ))] : List (ℝ × ℝ)).length := by
  have h : deduplicate (fun _ => Except.ok "a") [((0 : ℝ), (0 : ℝ)), ((1 : ℝ), (1 : ℝ))]
      = Except.ok ({"a"} : Finset String) := rfl
  exact ⟨h, deduplicate_invariants.1 _ _ _ h⟩

/-! ## String-slicing helper lemmas -/

lemma mk_append_mk (a b : List Char) : (⟨a⟩ : String) ++ (⟨b⟩ : String) = ⟨a ++ b⟩ := rfl

/-- Concatenating the four positional slices (widths 2, 3, 6, remainder)
reassembles any character list. -/
lemma list_slice_concat (l : List Char) :
    (((l.drop 0).take 2 ++ (l.drop 2).take 3) ++ (l.drop 5).take 6) ++ l.drop 11 = l := by
  rw [List.drop_zero, ← List.take_add]
  norm_num
  rw [← List.append_assoc, ← List.take_add]
  norm_num

/-! ## Claim C6 -/

/-- Claim C6 (confirmed): on a 15-character block FIPS string the
Aggregator's slices `[:2]`, `[2:5]`, `[5:11]`, `[11:]` extract sub-fields of
widths 2, 3, 6 and 4 (the remainder), and concatenating the four sub-fields
in order reconstructs the original string exactly. -/
theorem block_fips_field_decomposition (s : String) (h : s.length = 15) :
    (pySlice s 0 2).length = 2
  ∧ (pySlice s 2 5).length = 3
  ∧ (pySlice s 5 11).length = 6
  ∧ (pySliceFrom s 11).length = 4
  ∧ pySlice s 0 2 ++ pySlice s 2 5 ++ pySlice s 5 11 ++ pySliceFrom s 11 = s := by
  obtain ⟨l⟩ := s
  have hl : l.length = 15 := h
  refine ⟨?_, ?_, ?_, ?_, ?_⟩
  · show ((l.drop 0).take (2 - 0)).length = 2
    simp [List.length_take, List.length_drop, hl]
  · show ((l.drop 2).take (5 - 2)).length = 3
    simp [List.length_take, List.length_drop, hl]
  · show ((l.drop 5).take (11 - 5)).length = 6
    simp [List.length_take, List.length_drop, hl]
  · show (l.drop 11).length = 4
    simp [List.length_drop, hl]
  · show (((⟨(l.drop 0).take (2 - 0)⟩ : String) ++ ⟨(l.drop 2).take (5 - 2)⟩)
        ++ ⟨(l.drop 5).take (11 - 5)⟩) ++ ⟨l.drop 11⟩ = (⟨l⟩ : String)
    rw [mk_append_mk, mk_append_mk, mk_append_mk]
    exact congrArg String.mk (list_slice_concat l)

/-- Witness for C6 on the spec's own example identifier
`"16001010100" ++ "1000"` (15 characters). -/
theorem block_fips_field_decomposition_witness :
    ("160010101001000" : String).length = 15
  ∧ ((pySlice "160010101001000" 0 2).length = 2
  ∧ (pySlice "160010101001000" 2 5).length = 3
  ∧ (pySlice "160010101001000" 5 11).length = 6
  ∧ (pySliceFrom "160010101001000" 11).length = 4
  ∧ pySlice "160010101001000" 0 2 ++ pySlice "160010101001000" 2 5
      ++ pySlice "160010101001000" 5 11 ++ pySliceFrom "160010101001000" 11
      = "160010101001000") :=
  ⟨rfl, block_fips_field_decomposition "160010101001000" rfl⟩

/-! ## Claim C7 -/

/-- Counterexample for C7 as stated: the 3-character identifier `"123"` does
not match the 2/3/6/remainder shape, yet the pipeline does not reject it —
the slices silently truncate (`"12"`, `"3"`, `""`, `""`), the query is
issued, and with a well-formed service response the call succeeds with the
parsed population. -/
theorem short_fips_processed_counterexample :
    get_population_for_block_fips (fun _ _ _ => Except.ok [["P1_001N"], ["42"]]) "123" none
      = Except.ok 42 := rfl

/-- Claim C7 (corrected): no identifier-shape validation exists anywhere in
the pipeline: for every identifier string — in particular every string whose
length differs from 15 — the Aggregator slices it at the fixed offsets
(truncating silently) and issues the query anyway, so its result is exactly
the parse of whatever table the statistics service returns, never a
shape-rejection error. -/
theorem fips_no_shape_validation (s : String) (hlen : s.length ≠ 15)
    (http : String → CensusQuery → ℕ → Except CensusError Table)
    (api_key : Option String) (T : Table)
    (hT : ∀ endpoint q attempt, http endpoint q attempt = Except.ok T) :
    get_population_for_block_fips http s api_key = parsePopulation T := by
  simp only [get_population_for_block_fips, call_us_census_api]
  rw [retryAttempts_first_ok _ 0 2 T (hT _ _ 0)]

/-- Witness for C7 with the malformed identifier `"123"` and a constant
well-formed service response. -/
theorem fips_no_shape_validation_witness :
    ("123" : String).length ≠ 15
  ∧ get_population_for_block_fips (fun _ _ _ => Except.ok [["P1_001N"], ["5"]]) "123" none
      = parsePopulation [["P1_001N"], ["5"]] :=
  ⟨by decide, fips_no_shape_validation "123" (by decide) _ none _ (fun _ _ _ => rfl)⟩

/-! ## Claim C8 -/

/-- Claim C8 (confirmed): under the 3-attempt retry policy, both
network-dependent steps — identifier resolution (`get_census_block_fips`)
and the per-block population query (`get_population_for_block_fips`) —
return the successful result when the external call fails twice and
succeeds on the third attempt, and surface the final error (the terminal
failure the spec names `ResolutionError` / `AggregationError`) when all
three attempts fail: never a silent empty or zero result. -/
theorem census_retry_policy :
    (∀ (fcc : ℝ → ℝ → ℕ → Except CensusError String) (lat lon : ℝ)
        (e0 e1 : CensusError) (v : String),
        fcc lat lon 0 = Except.error e0 → fcc lat lon 1 = Except.error e1 →
        fcc lat lon 2 = Except.ok v →
        get_census_block_fips fcc lat lon = Except.ok v)
  ∧ (∀ (fcc : ℝ → ℝ → ℕ → Except CensusError String) (lat lon : ℝ)
        (e0 e1 e2 : CensusError),
        fcc lat lon 0 = Except.error e0 → fcc lat lon 1 = Except.error e1 →
        fcc lat lon 2 = Except.error e2 →
        get_census_block_fips fcc lat lon = Except.error e2)
  ∧ (∀ (http : String → CensusQuery → ℕ → Except CensusError Table) (s : String)
        (api_key : Option String) (e0 e1 : CensusError) (T : Table) (n : Int),
        (∀ endpoint q, http endpoint q 0 = Except.error e0) →
        (∀ endpoint q, http endpoint q 1 = Except.error e1) →
        (∀ endpoint q, http endpoint q 2 = Except.ok T) →
        parsePopulation T = Except.ok n →
        get_population_for_block_fips http s api_key = Except.ok n)
  ∧ (∀ (http : String → CensusQuery → ℕ → Except CensusError Table) (s : String)
        (api_key : Option String) (e0 e1 e2 : CensusError),
        (∀ endpoint q, http endpoint q 0 = Except.error e0) →
        (∀ endpoint q, http endpoint q 1 = Except.error e1) →
        (∀ endpoint q, http endpoint q 2 = Except.error e2) →
        get_population_for_block_fips http s api_key = Except.error e2) := by
  refine ⟨?_, ?_, ?_, ?_⟩
  · intro fcc lat lon e0 e1 v h0 h1 h2
    simp only [get_census_block_fips]
    exact retryAttempts_two_fail_then_ok _ e0 e1 v h0 h1 h2
  · intro fcc lat lon e0 e1 e2 h0 h1 h2
    simp only [get_census_block_fips]
    exact retryAttempts_all_fail _ e0 e1 e2 h0 h1 h2
  · intro http s api_key e0 e1 T n h0 h1 h2 hparse
    simp only [get_population_for_block_fips, call_us_census_api]
    rw [retryAttempts_two_fail_then_ok _ e0 e1 T (h0 _ _) (h1 _ _) (h2 _ _)]
    exact hparse
  · intro http s api_key e0 e1 e2 h0 h1 h2
    simp only [get_population_for_block_fips, call_us_census_api]
    rw [retryAttempts_all_fail _ e0 e1 e2 (h0 _ _) (h1 _ _) (h2 _ _)]

/-- Witness for C8: concrete oracles that fail the first two attempts and
succeed on the third, and oracles that fail on all attempts, for both
network-dependent steps. -/
theorem census_retry_policy_witness :
    get_census_block_fips
        (fun _ _ attempt => if attempt < 2 then Except.error CensusError.network
          else Except.ok "160010101001000") 0 0
      = Except.ok "160010101001000"
  ∧ get_census_block_fips (fun _ _ _ => Except.error CensusError.network) 0 0
      = Except.error CensusError.network
  ∧ get_population_for_block_fips
        (fun _ _ attempt => if attempt < 2 then Except.error CensusError.network
          else Except.ok [["P1_001N"], ["42"]]) "160010101001000" none
      = Except.ok 42
  ∧ get_population_for_block_fips (fun _ _ _ => Except.error CensusError.network)
        "160010101001000" none
      = Except.error CensusError.network := by
  refine ⟨?_, ?_, ?_, ?_⟩
  · exact census_retry_policy.1 _ 0 0 CensusError.network CensusError.network _ rfl rfl rfl
  · exact census_retry_policy.2.1 _ 0 0 CensusError.network CensusError.network
      CensusError.network rfl rfl rfl
  · exact census_retry_policy.2.2.1 _ _ none CensusError.network CensusError.network _ 42
      (fun _ _ => rfl) (fun _ _ => rfl) (fun _ _ => rfl) rfl
  · exact census_retry_policy.2.2.2 _ _ none CensusError.network CensusError.network
      CensusError.network (fun _ _ => rfl) (fun _ _ => rfl) (fun _ _ => rfl)

/-! ## Claim C9 -/

/-- Counterexample for C9 as stated: the statistics service answers the
first attempt with an HTTP-success but malformed table (`"x"` where the
population should be) and would answer any retry with the well-formed
`"42"` table.  The claim says the parse failure is counted against the
3-attempt budget, so the call should retry and succeed with 42; the code
instead parses outside the retry wrapper and fails immediately. -/
theorem parse_error_not_retried_counterexample :
    get_population_for_block_fips
        (fun _ _ attempt => if attempt = 0 then Except.ok [["P1_001N"], ["x"]]
          else Except.ok [["P1_001N"], ["42"]])
        "160010101001000" none
      = Except.error CensusError.parseError
  ∧ get_population_for_block_fips
        (fun _ _ attempt => if attempt = 0 then Except.ok [["P1_001N"], ["x"]]
          else Except.ok [["P1_001N"], ["42"]])
        "160010101001000" none
      ≠ Except.ok 42 :=
  ⟨rfl, fun h => Except.noConfusion h⟩

/-- Claim C9 (corrected): the parse of `response[1][0]` happens outside the
retried call, so a parse failure is NOT counted against the 3-attempt
budget: an HTTP-accepted response whose expected cell does not parse as an
integer makes the population query fail immediately with the parse error,
regardless of what later attempts would return.  Only network/status/JSON
failures of the call itself are retried: two such failures followed by a
parseable response yield the parsed value, and three failures surface the
final error. -/
theorem parse_error_immediate_failure :
    (∀ (http : String → CensusQuery → ℕ → Except CensusError Table) (s : String)
        (api_key : Option String) (T : Table) (e : CensusError),
        (∀ endpoint q, http endpoint q 0 = Except.ok T) →
        parsePopulation T = Except.error e →
        get_population_for_block_fips http s api_key = Except.error e)
  ∧ (∀ (http : String → CensusQuery → ℕ → Except CensusError Table) (s : String)
        (api_key : Option String) (e0 e1 : CensusError) (T : Table) (n : Int),
        (∀ endpoint q, http endpoint q 0 = Except.error e0) →
        (∀ endpoint q, http endpoint q 1 = Except.error e1) →
        (∀ endpoint q, http endpoint q 2 = Except.ok T) →
        parsePopulation T = Except.ok n →
        get_population_for_block_fips http s api_key = Except.ok n)
  ∧ (∀ (http : String → CensusQuery → ℕ → Except CensusError Table) (s : String)
        (api_key : Option String) (e0 e1 e2 : CensusError),
        (∀ endpoint q, http endpoint q 0 = Except.error e0) →
        (∀ endpoint q, http endpoint q 1 = Except.error e1) →
        (∀ endpoint q, http endpoint q 2 = Except.error e2) →
        get_population_for_block_fips http s api_key = Except.error e2) := by
  refine ⟨?_, ?_, ?_⟩
  · intro http s api_key T e h0 hparse
    simp only [get_population_for_block_fips, call_us_census_api]
    rw [retryAttempts_first_ok _ 0 2 T (h0 _ _)]
    exact hparse
  · intro http s api_key e0 e1 T n h0 h1 h2 hparse
    simp only [get_population_for_block_fips, call_us_census_api]
    rw [retryAttempts_two_fail_then_ok _ e0 e1 T (h0 _ _) (h1 _ _) (h2 _ _)]
    exact hparse
  · intro http s api_key e0 e1 e2 h0 h1 h2
    simp only [get_population_for_block_fips, call_us_census_api]
    rw [retryAttempts_all_fail _ e0 e1 e2 (h0 _ _) (h1 _ _) (h2 _ _)]

/-- Witness for the amended C9: an immediately-fatal malformed response, a
transient network failure recovered within the budget, and a full
exhaustion, all at concrete oracles. -/
theorem parse_error_immediate_failure_witness :
    get_population_for_block_fips (fun _ _ _ => Except.ok [["P1_001N"], ["abc"]])
        "160010101001000" none
      = Except.error CensusError.parseError
  ∧ get_population_for_block_fips
        (fun _ _ attempt => if attempt < 2 then Except.error (CensusError.status 500)
          else Except.ok [["P1_001N"], ["7"]]) "160010101001000" none
      = Except.ok 7
  ∧ get_population_for_block_fips (fun _ _ _ => Except.error (CensusError.status 500))
        "160010101001000" none
      = Except.error (CensusError.status 500) := by
  refine ⟨?_, ?_, ?_⟩
  · exact parse_error_immediate_failure.1 _ _ none _ CensusError.parseError
      (fun _ _ => rfl) rfl
  · exact parse_error_immediate_failure.2.1 _ _ none (CensusError.status 500)
      (CensusError.status 500) _ 7 (fun _ _ => rfl) (fun _ _ => rfl) (fun _ _ => rfl) rfl
  · exact parse_error_immediate_failure.2.2 _ _ none (CensusError.status 500)
      (CensusError.status 500) (CensusError.status 500) (fun _ _ => rfl) (fun _ _ => rfl)
      (fun _ _ => rfl)
